import Mathlib

/-!
Verification of the `ZmqClient` messaging client and its serializer
(`zmq_wrapper.hpp`, `zmq_serializer.hpp`) against the natural-language
specification.  The C++ code is shallowly embedded: machine integers are
modelled as `Int`/`Nat` with explicit reductions modulo `2 ^ 32` and
`2 ^ 64` where overflow matters, byte buffers as `List Nat` (each entry a
byte value), and the interactions with the ZeroMQ socket (send outcomes,
the `ZMQ_RCVMORE` option reads, poll results) as explicit oracle
parameters, so every definition is executable.
-/

/-! ## Protocol constants (from zmq_wrapper.hpp, release build) -/

def ZMQ_PROTOCOL_VERSION : Int := 1013

def CLIENT_PING_INTERVAL : Int := 1000

def EXPORTER_TIMEOUT : Int := CLIENT_PING_INTERVAL * 5

def HEARBEAT_TIMEOUT : Int := CLIENT_PING_INTERVAL * 2

def MAX_CONSEQ_MESSAGES : Nat := 10

/-! ## Enums -/

/-- Client roles (enum class ClientType). -/
inductive ClientType : Type
  | None
  | Exporter
  | Heartbeat
deriving DecidableEq, Repr

/-- Underlying `int` value of a `ClientType` (the enum is `: int`). -/
def ClientType.toInt : ClientType → Int
  | .None => 0
  | .Exporter => 1
  | .Heartbeat => 2

/-- Control opcodes (enum class ControlMessage). -/
inductive ControlMessage : Type
  | DATA_MSG
  | EXPORTER_CONNECT_MSG
  | HEARTBEAT_CONNECT_MSG
  | RENDERER_CREATE_MSG
  | HEARTBEAT_CREATE_MSG
  | PING_MSG
  | PONG_MSG
  | STOP_MSG
deriving DecidableEq, Repr

/-- Underlying `int` value of a `ControlMessage` (the enum is `: int`). -/
def ControlMessage.toInt : ControlMessage → Int
  | .DATA_MSG => 0
  | .EXPORTER_CONNECT_MSG => 1000
  | .HEARTBEAT_CONNECT_MSG => 1001
  | .RENDERER_CREATE_MSG => 2000
  | .HEARTBEAT_CREATE_MSG => 2001
  | .PING_MSG => 3000
  | .PONG_MSG => 3001
  | .STOP_MSG => 4000

/-! ## Control frame codec

`ControlFrame` is a fixed-width record of three 32-bit signed integers
`{version, type, control}` laid out contiguously (native byte order is
modelled as little-endian).  A decoded frame carries the raw `int` values,
since `memcpy` from the wire can produce values outside either enum. -/

/-- On-wire width of a control frame: `sizeof(ControlFrame)` = three
32-bit integers. -/
def frameWidth : Nat := 12

/-- A control frame after decoding: raw 32-bit values. -/
structure ControlFrame where
  version : Int
  type : Int
  control : Int
deriving DecidableEq, Repr

/-- Serialize a 32-bit signed integer to four little-endian bytes. -/
def toBytes32 (v : Int) : List Nat :=
  let n := (v % 4294967296).toNat
  [n % 256, n / 256 % 256, n / 65536 % 256, n / 16777216 % 256]

/-- Read four little-endian bytes as a 32-bit signed integer. -/
def fromBytes32 (b0 b1 b2 b3 : Nat) : Int :=
  let n := (b0 + 256 * b1 + 65536 * b2 + 16777216 * b3) % 4294967296
  if n < 2147483648 then (n : Int) else (n : Int) - 4294967296

/-- `ControlFrame::make(type, ctrl)`: build a frame with
`version = ZMQ_PROTOCOL_VERSION` and copy its bytes out. -/
def ControlFrame.make (t : ClientType) (c : ControlMessage) : List Nat :=
  toBytes32 ZMQ_PROTOCOL_VERSION ++ toBytes32 t.toInt ++ toBytes32 c.toInt

/-- `ControlFrame(const zmq::message_t &)`: if the buffer length differs
from the frame width, only `version` is assigned (`-1`); the other two
fields keep whatever was in the uninitialized record, modelled by the
`jT`/`jC` parameters.  Otherwise the bytes are copied field by field. -/
def ControlFrame.decode (jT jC : Int) (bytes : List Nat) : ControlFrame :=
  if bytes.length = frameWidth then
    { version := fromBytes32 (bytes.getD 0 0) (bytes.getD 1 0) (bytes.getD 2 0) (bytes.getD 3 0)
      type := fromBytes32 (bytes.getD 4 0) (bytes.getD 5 0) (bytes.getD 6 0) (bytes.getD 7 0)
      control := fromBytes32 (bytes.getD 8 0) (bytes.getD 9 0) (bytes.getD 10 0) (bytes.getD 11 0) }
  else
    { version := -1, type := jT, control := jC }

/-- `ControlFrame::operator bool`: a frame is valid iff its version equals
the compiled protocol version. -/
def ControlFrame.valid (f : ControlFrame) : Bool :=
  f.version == ZMQ_PROTOCOL_VERSION

/-! ## Serializer (zmq_serializer.hpp)

The stream is a growable byte vector; `write` appends raw bytes (with an
early return when the size is zero).  `sizeof(size_t)` is the platform
word, 8 bytes on the 64-bit targets this code ships on. -/

/-- Platform word size in bytes (`sizeof(size_t)`). -/
def wordSize : Nat := 8

/-- `SerializerStream::write(data, size)`: no-op when `size == 0`, else
append the bytes at the end of the stream. -/
def SerializerStream.write (st data : List Nat) : List Nat :=
  if data.length = 0 then st else st ++ data

/-- Little-endian bytes of a `size_t` value (low 64 bits). -/
def encodeWord (n : Nat) : List Nat :=
  [n % 256, n / 256 % 256, n / 65536 % 256, n / 16777216 % 256,
   n / 4294967296 % 256, n / 1099511627776 % 256,
   n / 281474976710656 % 256, n / 72057594037927936 % 256]

/-- `operator<<(SerializerStream &, const std::string &)`: write the
length as a `size_t`, then the string bytes (`c_str`, exactly `size`
bytes, no terminator). -/
def writeString (st s : List Nat) : List Nat :=
  SerializerStream.write (SerializerStream.write st (encodeWord s.length)) s

/-! ## Client state

The scalar flags and the outbound queue of a `ZmqClient`.  Payloads are
byte buffers.  The socket identity records the 64-bit value `connect`
installs with `ZMQ_IDENTITY`; `startCondSignaled` records that
`startServingCond` was notified. -/

structure ClientState where
  startServing : Bool
  isWorking : Bool
  errorConnect : Bool
  flushOnExit : Bool
  serverStop : Bool
  messageQue : List (List Nat)
  socketIdentity : Option Nat
  startCondSignaled : Bool
deriving DecidableEq, Repr

/-- State of a freshly constructed client (constructor initializer
list). -/
def ClientState.initial : ClientState :=
  { startServing := false, isWorking := true, errorConnect := false,
    flushOnExit := false, serverStop := false, messageQue := [],
    socketIdentity := Option.none, startCondSignaled := false }

namespace ZmqClient

/-- `ZmqClient::good`: the worker is still serving. -/
def good (st : ClientState) : Bool :=
  st.isWorking

/-- `ZmqClient::connected`: `startServing && !errorConnect`. -/
def connected (st : ClientState) : Bool :=
  st.startServing && !st.errorConnect

/-- `ZmqClient::getOutstandingMessages`: current queue length. -/
def getOutstandingMessages (st : ClientState) : Nat :=
  st.messageQue.length

/-- `ZmqClient::send`: push the payload at the back of the queue (both
overloads end in `messageQue.push_back`). -/
def send (st : ClientState) (payload : List Nat) : ClientState :=
  { st with messageQue := st.messageQue ++ [payload] }

/-- `ZmqClient::stopServer`: request a STOP farewell and stop the
worker. -/
def stopServer (st : ClientState) : ClientState :=
  { st with serverStop := true, isWorking := false }

/-- `ZmqClient::connect(addr)`: install the freshly generated 64-bit
identity `id` on the socket, attempt the transport connect (its outcome
is the `connectFails` oracle; on failure `errorConnect` is set), then set
`startServing` and notify the start condition in all cases. -/
def connect (st : ClientState) (id : Nat) (connectFails : Bool) : ClientState :=
  let st1 := { st with socketIdentity := Option.some (id % 18446744073709551616) }
  let st2 := if connectFails then { st1 with errorConnect := true } else st1
  { st2 with startServing := true, startCondSignaled := true }

end ZmqClient

/-! ## Handshake phase (workerThread, recv-handshake block)

After sending the connect envelope, the worker receives one envelope with
`EXPORTER_TIMEOUT` as receive timeout.  `reply` is `none` on timeout,
otherwise the bytes of the control part.  Every early `return` runs the
`atScopeExit` handler, which closes the socket and clears `isWorking`. -/

/-- The role-specific create opcode the worker insists on: the code
checks `RENDERER_CREATE_MSG` when `clientType == Exporter` and
`HEARTBEAT_CREATE_MSG` otherwise. -/
def createMsg (ct : ClientType) : ControlMessage :=
  if ct = ClientType.Exporter then ControlMessage.RENDERER_CREATE_MSG
  else ControlMessage.HEARTBEAT_CREATE_MSG

/-- The recv-handshake validation: `true` iff the worker proceeds to the
steady loop.  Mirrors the chain of early returns: timeout, invalid
version, role mismatch, wrong create opcode. -/
def recvHandshake (ct : ClientType) (jT jC : Int) (reply : Option (List Nat)) : Bool :=
  match reply with
  | Option.none => false
  | Option.some bytes =>
    let frame := ControlFrame.decode jT jC bytes
    if frame.version ≠ ZMQ_PROTOCOL_VERSION then false
    else if frame.type ≠ ct.toInt then false
    else if ct = ClientType.Exporter then
      decide (frame.control = ControlMessage.RENDERER_CREATE_MSG.toInt)
    else
      decide (frame.control = ControlMessage.HEARTBEAT_CREATE_MSG.toInt)

/-- Outcome of the handshake phase on the client state: on success the
worker continues (second component `true`); on any failure it returns,
and `atScopeExit` clears `isWorking`. -/
def handshakePhase (ct : ClientType) (jT jC : Int) (st : ClientState)
    (reply : Option (List Nat)) : ClientState × Bool :=
  if recvHandshake ct jT jC reply then (st, true)
  else ({ st with isWorking := false }, false)

/-! ## Steady-state receive (workerThread, ZMQ_POLLIN branch) -/

/-- What the steady loop does with one received envelope. -/
inductive RecvAction : Type
  | dropInvalid
  | dropRoleMismatch
  | dispatch (opcode : Int) (payload : List Nat)
deriving DecidableEq, Repr

/-- Classification of one received envelope in the steady loop: an
invalid frame (version mismatch, including wrong-length buffers) is
dropped with a log line; a role mismatch is dropped; otherwise
`lastHBRecv` is refreshed and the opcode is dispatched. -/
def steadyClassify (ct : ClientType) (jT jC : Int) (bytes payload : List Nat) : RecvAction :=
  let frame := ControlFrame.decode jT jC bytes
  if frame.version ≠ ZMQ_PROTOCOL_VERSION then RecvAction.dropInvalid
  else if frame.type ≠ ct.toInt then RecvAction.dropRoleMismatch
  else RecvAction.dispatch frame.control payload

/-- The bounded receive loop: up to `MAX_CONSEQ_MESSAGES` envelopes, each
given with the `ZMQ_RCVMORE` value observed after it (`false` ends the
loop).  Returns the dispatched (opcode, payload) pairs in order; dropped
envelopes contribute nothing and do not end the loop. -/
def steadyRecvLoop (ct : ClientType) (jT jC : Int) :
    Nat → List (List Nat × List Nat × Bool) → List (Int × List Nat)
  | 0, _ => []
  | _ + 1, [] => []
  | n + 1, (bytes, payload, more) :: rest =>
    let acts := match steadyClassify ct jT jC bytes payload with
      | RecvAction.dispatch op p => [(op, p)]
      | _ => []
    acts ++ (if more then steadyRecvLoop ct jT jC n rest else [])

/-! ## Steady-state sendout (workerSendoutMessages)

Each iteration of the drain loop performs: send the control frame
`ControlFrame::make(ClientType::Exporter, ControlMessage::DATA_MSG)`; if
that succeeded, send the payload (whose own success is not consulted for
control flow), refresh `lastHBSend`, pop the queue, and read
`ZMQ_RCVMORE`, ending the loop when it is 0; if the control-frame send
failed, end the loop.  The oracle gives, per iteration, the
control-frame send outcome, the payload send outcome and the
`ZMQ_RCVMORE` read; a missing entry means everything succeeds with
pending multipart input. -/

/-- `ControlFrame::make()` with its default arguments:
`ControlFrame{Exporter, DATA_MSG}`, the control frame of every DATA
envelope the worker emits (both in the drain loop and in the
flush-on-exit loop). -/
def defaultFrame : ControlFrame :=
  { version := ZMQ_PROTOCOL_VERSION, type := ClientType.Exporter.toInt,
    control := ControlMessage.DATA_MSG.toInt }

/-- The drain loop body.  Returns the emitted DATA envelopes (control
frame and payload, in emission order), the remaining queue, and the
number of times `lastHBSend` was refreshed (the code assigns
`lastHBSend = now()` once per iteration whose control-frame send
succeeded). -/
def sendoutLoop : Nat → List (List Nat) → List (Bool × Bool × Bool) →
    List (ControlFrame × List Nat) × List (List Nat) × Nat
  | 0, q, _ => ([], q, 0)
  | _ + 1, [], _ => ([], [], 0)
  | fuel + 1, msg :: rest, oracle =>
    let o := oracle.headD (true, true, true)
    if o.1 then
      if o.2.2 then
        let r := sendoutLoop fuel rest oracle.tail
        ((defaultFrame, msg) :: r.1, r.2.1, r.2.2 + 1)
      else ([(defaultFrame, msg)], rest, 1)
    else ([], msg :: rest, 0)

/-- `ZmqClient::workerSendoutMessages`: drain with loop bound
`MAX_CONSEQ_MESSAGES`; returns (emitted DATA envelopes, remaining queue,
number of `lastHBSend` keepalive refreshes). -/
def workerSendoutMessages (q : List (List Nat)) (oracle : List (Bool × Bool × Bool)) :
    List (ControlFrame × List Nat) × List (List Nat) × Nat :=
  sendoutLoop MAX_CONSEQ_MESSAGES q oracle

/-! ## Liveness check (workerThread, after the poll branches) -/

/-- The per-iteration peer-silence check: Heartbeat clients whose
`now - lastHBRecv` exceeds `HEARBEAT_TIMEOUT` return from the worker
(`atScopeExit` clears `isWorking`); second component is `true` when the
worker terminated. -/
def steadyLivenessStep (ct : ClientType) (st : ClientState) (elapsedMs : Int) :
    ClientState × Bool :=
  if ct = ClientType.Heartbeat ∧ elapsedMs > HEARBEAT_TIMEOUT then
    ({ st with isWorking := false }, true)
  else (st, false)

/-! ## Teardown (workerThread, after the steady loop)

The envelope list records every emitted (control frame, payload) pair;
`defaultFrame` above is the frame of every flushed DATA envelope. -/

/-- The flush-on-exit loop: for each index `c < messageQue.size()` in
order, send the DATA control frame then the payload; `sent` is the
conjunction, and the loop breaks on the first `!sent`.  Nothing is ever
popped.  Oracle per index: (control-frame send ok, payload send ok); a
missing entry means success. -/
def flushLoop : List (List Nat) → List (Bool × Bool) → List (ControlFrame × List Nat)
  | [], _ => []
  | msg :: rest, oracle =>
    let o := oracle.headD (true, true)
    if o.1 then
      if o.2 then (defaultFrame, msg) :: flushLoop rest oracle.tail
      else [(defaultFrame, msg)]
    else []

/-- The teardown tail of `workerThread`: the `serverStop` branch emits
one STOP envelope and clears `serverStop`; otherwise the `flushOnExit`
branch drains the queue without popping; otherwise nothing.  In every
case the `atScopeExit` handler then closes the socket and clears
`isWorking`. -/
def workerTeardown (ct : ClientType) (st : ClientState) (oracle : List (Bool × Bool)) :
    ClientState × List (ControlFrame × List Nat) :=
  if st.serverStop then
    ({ st with serverStop := false, isWorking := false },
     [({ version := ZMQ_PROTOCOL_VERSION, type := ct.toInt,
         control := ControlMessage.STOP_MSG.toInt }, [])])
  else if st.flushOnExit then
    ({ st with isWorking := false }, flushLoop st.messageQue oracle)
  else
    ({ st with isWorking := false }, [])

/-! ## waitForMessages

The loop body observes, per iteration, a snapshot of `isWorking`, the
queue emptiness (under the queue mutex) and the elapsed milliseconds.
`waitLoop` returns `some` of the return value once a branch decides, and
`none` if the trace runs out undecided. -/

def waitLoop (t : Int) : List (Bool × Bool × Int) → Option Bool
  | [] => Option.none
  | (working, empty, passed) :: rest =>
    if working = false then Option.some false
    else if empty then Option.some true
    else if passed ≥ t then Option.some false
    else waitLoop t rest

/-- `ZmqClient::waitForMessages(timeout)`: clamp the timeout with
`min timeout 10000`; return true at once when the queue is first observed
empty; otherwise run the polling loop. -/
def waitForMessages (timeout : Int) (firstEmpty : Bool)
    (trace : List (Bool × Bool × Int)) : Option Bool :=
  if firstEmpty then Option.some true
  else waitLoop (min timeout 10000) trace

/-! ## Theorems for the codec and serializer claims -/

/-- Claim C6: for every role and control opcode, `ControlFrame::make`
produces exactly `sizeof(ControlFrame)` bytes, and decoding those bytes
yields a valid frame carrying the same role and opcode, whatever junk the
uninitialized fields would hold. -/
theorem C6_frame_roundtrip (t : ClientType) (c : ControlMessage) (jT jC : Int) :
    (ControlFrame.make t c).length = frameWidth ∧
    (ControlFrame.decode jT jC (ControlFrame.make t c)).valid = true ∧
    (ControlFrame.decode jT jC (ControlFrame.make t c)).type = t.toInt ∧
    (ControlFrame.decode jT jC (ControlFrame.make t c)).control = c.toInt := by
  cases t <;> cases c <;>
    refine ⟨rfl, ?_, ?_, ?_⟩ <;>
    simp [ControlFrame.decode, ControlFrame.make, ControlFrame.valid,
      toBytes32, fromBytes32, frameWidth, ZMQ_PROTOCOL_VERSION,
      ClientType.toInt, ControlMessage.toInt]

/-- Claim C9: the String writer appends exactly
`sizeof(size_t) + s.size()` bytes: first the length as a platform-word
little-endian integer, then the string content byte for byte, with no
terminator and no padding, and the previously written bytes are
unchanged. -/
theorem C9_string_writer (st s : List Nat) :
    writeString st s = st ++ encodeWord s.length ++ s ∧
    (writeString st s).length = st.length + wordSize + s.length ∧
    (encodeWord s.length).length = wordSize ∧
    (writeString st s).take st.length = st := by
  have hword : (encodeWord s.length).length = wordSize := rfl
  have hexp : writeString st s = st ++ encodeWord s.length ++ s := by
    unfold writeString SerializerStream.write
    rcases s with _ | ⟨b, rest⟩ <;> simp [encodeWord]
  refine ⟨hexp, ?_, hword, ?_⟩
  · rw [hexp]
    simp [hword, wordSize]
    omega
  · rw [hexp, List.append_assoc, List.take_left]

/-! ## Theorems for the client claims -/

/-- Helper: the recv-handshake validation succeeds exactly when the
decoded frame carries the protocol version, the own role and the
role-specific create opcode. -/
theorem recvHandshake_eq_true (ct : ClientType) (jT jC : Int) (bytes : List Nat) :
    recvHandshake ct jT jC (Option.some bytes) = true ↔
      ((ControlFrame.decode jT jC bytes).version = ZMQ_PROTOCOL_VERSION ∧
       (ControlFrame.decode jT jC bytes).type = ct.toInt ∧
       (ControlFrame.decode jT jC bytes).control = (createMsg ct).toInt) := by
  cases ct <;> simp only [recvHandshake, createMsg] <;> split_ifs <;> simp_all

/-- Helper: the handshake phase proceeds exactly when the validation
succeeds. -/
theorem handshakePhase_snd (ct : ClientType) (jT jC : Int) (st : ClientState)
    (reply : Option (List Nat)) :
    (handshakePhase ct jT jC st reply).2 = recvHandshake ct jT jC reply := by
  unfold handshakePhase
  by_cases h : recvHandshake ct jT jC reply <;> simp [h]

/-- Claim C1: for either role, the worker enters the steady loop exactly
when the handshake reply arrived in time and carries the protocol
version, the client's own role, and the role-specific create opcode; a
timeout gives teardown, and every teardown outcome ends with `isWorking`
cleared. -/
theorem C1_handshake_validation (ct : ClientType) (jT jC : Int) (st : ClientState) :
    handshakePhase ct jT jC st Option.none = ({ st with isWorking := false }, false) ∧
    (∀ bytes, (handshakePhase ct jT jC st (Option.some bytes)).2 = true ↔
        ((ControlFrame.decode jT jC bytes).version = ZMQ_PROTOCOL_VERSION ∧
         (ControlFrame.decode jT jC bytes).type = ct.toInt ∧
         (ControlFrame.decode jT jC bytes).control = (createMsg ct).toInt)) ∧
    (∀ reply, (handshakePhase ct jT jC st reply).2 = false →
        (handshakePhase ct jT jC st reply).1.isWorking = false) := by
  refine ⟨by simp [handshakePhase, recvHandshake], fun bytes => ?_, fun reply h => ?_⟩
  · rw [handshakePhase_snd]
    exact recvHandshake_eq_true ct jT jC bytes
  · rw [handshakePhase_snd] at h
    simp [handshakePhase, h]

/-- Claim C1 witness: an Exporter receiving the matching create envelope
proceeds, and a receive timeout leaves `isWorking` cleared. -/
theorem C1_handshake_validation_witness :
    (handshakePhase ClientType.Exporter 0 0 ClientState.initial
      (Option.some (ControlFrame.make ClientType.Exporter
        ControlMessage.RENDERER_CREATE_MSG))).2 = true ∧
    (handshakePhase ClientType.Exporter 0 0 ClientState.initial
      Option.none).1.isWorking = false :=
  ⟨((C1_handshake_validation ClientType.Exporter 0 0 ClientState.initial).2.1 _).mpr
      (by refine ⟨?_, ?_, ?_⟩ <;> decide),
   (C1_handshake_validation ClientType.Exporter 0 0 ClientState.initial).2.2
      Option.none (by decide)⟩

/-- Claim C3: a control frame whose version differs from 1013 is
classified invalid; in the steady loop such an envelope is dropped and
the loop continues on the remaining envelopes; during the handshake it
aborts the client; and any buffer whose length differs from the frame
width decodes with version `-1`. -/
theorem C3_version_gate (ct : ClientType) (jT jC : Int) (bytes payload : List Nat)
    (n : Nat) (rest : List (List Nat × List Nat × Bool))
    (h : (ControlFrame.decode jT jC bytes).version ≠ ZMQ_PROTOCOL_VERSION) :
    (ControlFrame.decode jT jC bytes).valid = false ∧
    steadyClassify ct jT jC bytes payload = RecvAction.dropInvalid ∧
    steadyRecvLoop ct jT jC (n + 1) ((bytes, payload, true) :: rest) =
      steadyRecvLoop ct jT jC n rest ∧
    recvHandshake ct jT jC (Option.some bytes) = false ∧
    (∀ b : List Nat, b.length ≠ frameWidth →
      (ControlFrame.decode jT jC b).version = -1) := by
  refine ⟨?_, ?_, ?_, ?_, fun b hb => ?_⟩
  · simp [ControlFrame.valid, h]
  · simp [steadyClassify, h]
  · simp [steadyRecvLoop, steadyClassify, h]
  · simp [recvHandshake, h]
  · simp [ControlFrame.decode, hb]

/-- Claim C3 witness: the empty buffer decodes invalid, is dropped in
steady state and aborts the handshake. -/
theorem C3_version_gate_witness :
    (ControlFrame.decode 0 0 ([] : List Nat)).version ≠ ZMQ_PROTOCOL_VERSION ∧
    steadyClassify ClientType.Exporter 0 0 [] [] = RecvAction.dropInvalid ∧
    recvHandshake ClientType.Exporter 0 0 (Option.some []) = false :=
  ⟨by decide,
   (C3_version_gate ClientType.Exporter 0 0 [] [] 0 [] (by decide)).2.1,
   (C3_version_gate ClientType.Exporter 0 0 [] [] 0 [] (by decide)).2.2.2.1⟩

/-- Claim C5: for a Heartbeat client, peer silence beyond
`HEARBEAT_TIMEOUT` (2000 ms) makes the per-iteration liveness check
terminate the worker, after which `good()` is false; the check never
fires for an Exporter client. -/
theorem C5_heartbeat_liveness (st : ClientState) (elapsedMs : Int) :
    HEARBEAT_TIMEOUT = 2000 ∧
    (elapsedMs > HEARBEAT_TIMEOUT →
      steadyLivenessStep ClientType.Heartbeat st elapsedMs =
        ({ st with isWorking := false }, true) ∧
      ZmqClient.good (steadyLivenessStep ClientType.Heartbeat st elapsedMs).1 = false) ∧
    (∀ e : Int, steadyLivenessStep ClientType.Exporter st e = (st, false)) := by
  refine ⟨by decide, fun h => ?_, fun e => ?_⟩
  · constructor <;> simp [steadyLivenessStep, h, ZmqClient.good]
  · simp [steadyLivenessStep]

/-- Claim C5 witness: 2001 ms of silence terminates a Heartbeat client. -/
theorem C5_heartbeat_liveness_witness :
    (2001 : Int) > HEARBEAT_TIMEOUT ∧
    steadyLivenessStep ClientType.Heartbeat ClientState.initial 2001 =
      ({ ClientState.initial with isWorking := false }, true) :=
  ⟨by decide, ((C5_heartbeat_liveness ClientState.initial 2001).2.1 (by decide)).1⟩

/-- Claim C7: `waitForMessages` compares elapsed time against
`min timeout 10000`; it returns true at once when the queue is observed
empty (including the pre-loop check); a snapshot with the worker exited
returns false; a snapshot with the queue non-empty returns false exactly
when the clamped timeout has elapsed, and otherwise the loop
continues. -/
theorem C7_waitForMessages_clamp (t : Int) (fe : Bool) (tr : List (Bool × Bool × Int)) :
    waitForMessages t fe tr = waitForMessages (min t 10000) fe tr ∧
    waitForMessages t true tr = Option.some true ∧
    waitForMessages t false tr = waitLoop (min t 10000) tr ∧
    (∀ e p rest, waitLoop (min t 10000) ((false, e, p) :: rest) = Option.some false) ∧
    (∀ p rest, waitLoop (min t 10000) ((true, true, p) :: rest) = Option.some true) ∧
    (∀ p rest, waitLoop (min t 10000) ((true, false, p) :: rest) =
      if p ≥ min t 10000 then Option.some false else waitLoop (min t 10000) rest) := by
  refine ⟨?_, by simp [waitForMessages], by simp [waitForMessages],
    fun e p rest => by simp [waitLoop], fun p rest => by simp [waitLoop],
    fun p rest => by simp [waitLoop]⟩
  simp [waitForMessages, min_assoc]

/-- Claim C8: `connect` installs the 64-bit identity, records the
connect failure in `errorConnect` exactly when the transport connect
fails, always sets `startServing` and signals the start condition, and
afterwards `connected()` holds iff `errorConnect` was not set. -/
theorem C8_connect (st : ClientState) (id : Nat) (connectFails : Bool)
    (h : st.errorConnect = false) :
    (ZmqClient.connect st id connectFails).socketIdentity =
      Option.some (id % 18446744073709551616) ∧
    (ZmqClient.connect st id connectFails).errorConnect = connectFails ∧
    (ZmqClient.connect st id connectFails).startServing = true ∧
    (ZmqClient.connect st id connectFails).startCondSignaled = true ∧
    (ZmqClient.connected (ZmqClient.connect st id connectFails) = true ↔
      connectFails = false) := by
  cases connectFails <;> simp [ZmqClient.connect, ZmqClient.connected, h]

/-- Claim C8 witness: a successful connect on a fresh client leaves
`errorConnect` clear and `connected()` true. -/
theorem C8_connect_witness :
    (ZmqClient.connect ClientState.initial 5 false).errorConnect = false ∧
    ZmqClient.connected (ZmqClient.connect ClientState.initial 5 false) = true :=
  ⟨(C8_connect ClientState.initial 5 false (by decide)).2.1,
   ((C8_connect ClientState.initial 5 false (by decide)).2.2.2.2).mpr rfl⟩

/-- Helper: the drain loop always emits, as `(Exporter, DATA)` envelopes
and in queue order, a prefix of the queue, pops exactly the emitted
payloads, and refreshes `lastHBSend` once per emitted envelope, no
matter what the send and `ZMQ_RCVMORE` oracles report. -/
theorem sendoutLoop_take (fuel : Nat) (q : List (List Nat))
    (oracle : List (Bool × Bool × Bool)) :
    ∃ k, k ≤ fuel ∧ k ≤ q.length ∧
      (sendoutLoop fuel q oracle).1 = (q.take k).map (fun m => (defaultFrame, m)) ∧
      (sendoutLoop fuel q oracle).2.1 = q.drop k ∧
      (sendoutLoop fuel q oracle).2.2 = k := by
  induction fuel generalizing q oracle with
  | zero => exact ⟨0, by simp [sendoutLoop]⟩
  | succ n ih =>
    rcases q with _ | ⟨msg, rest⟩
    · exact ⟨0, by simp [sendoutLoop]⟩
    · by_cases h1 : (oracle.head?.getD (true, true, true)).1
      · by_cases h2 : (oracle.head?.getD (true, true, true)).2.2
        · rcases ih rest oracle.tail with ⟨k, hk1, hk2, he, hr, hu⟩
          refine ⟨k + 1, by omega, by simp; omega, ?_, ?_, ?_⟩
          · simp [sendoutLoop, h1, h2, he]
          · simp [sendoutLoop, h1, h2, hr]
          · simp [sendoutLoop, h1, h2, hu]
        · refine ⟨1, by omega, by simp, ?_, ?_, ?_⟩ <;>
            simp [sendoutLoop, h1, h2]
      · refine ⟨0, by omega, by simp, ?_, ?_, ?_⟩ <;>
          simp [sendoutLoop, h1]

/-- Helper: when every control-frame send succeeds and `ZMQ_RCVMORE`
always reads non-zero (the oracle defaults), the drain emits and pops
`min fuel q.length` payloads, refreshing the keepalive each time. -/
theorem sendoutLoop_all_success (fuel : Nat) (q : List (List Nat)) :
    sendoutLoop fuel q [] =
      ((q.take fuel).map (fun m => (defaultFrame, m)), q.drop fuel,
       min fuel q.length) := by
  induction fuel generalizing q with
  | zero => simp [sendoutLoop]
  | succ n ih =>
    rcases q with _ | ⟨msg, rest⟩
    · simp [sendoutLoop]
    · simp [sendoutLoop, ih, Nat.succ_min_succ]

/-- Claim C2 counterexample: with two queued payloads and every send
succeeding, the drain emits only the first envelope because the
`ZMQ_RCVMORE` read after it is 0 — the drain stopped without any send
failure, contradicting the claim that it stops only on the first send
failure. -/
theorem C2_drain_counterexample :
    workerSendoutMessages [[0], [1]] [(true, true, false), (true, true, false)] =
      ([(defaultFrame, [0])], [[1]], 1) ∧
    (∀ o ∈ [((true : Bool), (true : Bool), (false : Bool)), (true, true, false)],
        o.1 = true ∧ o.2.1 = true) ∧
    ([(defaultFrame, [0])] : List (ControlFrame × List Nat)).length ≠
      ([[0], [1]] : List (List Nat)).length := by
  decide

/-- Claim C2 (amended): `send` enqueues at the back; on each writable
poll iteration the drain emits, for a prefix of the outbound queue of at
most `MAX_CONSEQ_MESSAGES` payloads and in FIFO order, one envelope
`(ControlFrame{Exporter, DATA}, payload)` each, popping exactly the
emitted payloads (a payload is popped once its control-frame send
succeeds, even if its payload-part send fails) and refreshing the
keepalive send timestamp `lastHBSend` once per emitted envelope; the
drain stops early on the first control-frame send failure or, after any
successful send, when the socket's `ZMQ_RCVMORE` option reads 0; when
every send succeeds and `ZMQ_RCVMORE` stays non-zero it drains the full
`MAX_CONSEQ_MESSAGES` batch. -/
theorem C2_drain_fifo (st : ClientState) (p : List Nat)
    (q : List (List Nat)) (oracle : List (Bool × Bool × Bool)) :
    (ZmqClient.send st p).messageQue = st.messageQue ++ [p] ∧
    defaultFrame = { version := ZMQ_PROTOCOL_VERSION,
                     type := ClientType.Exporter.toInt,
                     control := ControlMessage.DATA_MSG.toInt } ∧
    (∃ k, k ≤ MAX_CONSEQ_MESSAGES ∧ k ≤ q.length ∧
      (workerSendoutMessages q oracle).1 =
        (q.take k).map (fun m => (defaultFrame, m)) ∧
      (workerSendoutMessages q oracle).2.1 = q.drop k ∧
      (workerSendoutMessages q oracle).2.2 = k) ∧
    workerSendoutMessages q [] =
      ((q.take MAX_CONSEQ_MESSAGES).map (fun m => (defaultFrame, m)),
       q.drop MAX_CONSEQ_MESSAGES, min MAX_CONSEQ_MESSAGES q.length) :=
  ⟨by simp [ZmqClient.send], rfl,
   sendoutLoop_take MAX_CONSEQ_MESSAGES q oracle,
   sendoutLoop_all_success MAX_CONSEQ_MESSAGES q⟩

/-- Claim C4: when `serverStop` is set at steady-loop exit, the teardown
emits exactly one STOP envelope and no DATA envelope, leaves the queued
payloads unsent (the flush branch is skipped even when `flushOnExit` is
set), clears `serverStop` and ends with `isWorking` cleared. -/
theorem C4_stop_precedence (ct : ClientType) (st : ClientState)
    (oracle : List (Bool × Bool)) (h : st.serverStop = true) :
    (workerTeardown ct st oracle).2 =
      [({ version := ZMQ_PROTOCOL_VERSION, type := ct.toInt,
          control := ControlMessage.STOP_MSG.toInt }, [])] ∧
    (∀ e ∈ (workerTeardown ct st oracle).2,
        e.1.control ≠ ControlMessage.DATA_MSG.toInt) ∧
    (workerTeardown ct st oracle).1.messageQue = st.messageQue ∧
    (workerTeardown ct st oracle).1.serverStop = false ∧
    (workerTeardown ct st oracle).1.isWorking = false := by
  refine ⟨by simp [workerTeardown, h], ?_, by simp [workerTeardown, h],
    by simp [workerTeardown, h], by simp [workerTeardown, h]⟩
  intro e he
  simp [workerTeardown, h] at he
  rw [he]
  simp [ControlMessage.toInt]

/-- Claim C4 witness: after `stopServer` on a client with `flushOnExit`
set and a pending payload, teardown emits the lone STOP envelope and
leaves the queue untouched. -/
theorem C4_stop_precedence_witness :
    (workerTeardown ClientType.Exporter
        (ZmqClient.stopServer
          { ClientState.initial with flushOnExit := true, messageQue := [[7]] }) []).2 =
      [({ version := ZMQ_PROTOCOL_VERSION, type := ClientType.Exporter.toInt,
          control := ControlMessage.STOP_MSG.toInt }, [])] ∧
    (workerTeardown ClientType.Exporter
        (ZmqClient.stopServer
          { ClientState.initial with flushOnExit := true, messageQue := [[7]] }) []).1.messageQue =
      [[7]] :=
  ⟨(C4_stop_precedence ClientType.Exporter
      (ZmqClient.stopServer
        { ClientState.initial with flushOnExit := true, messageQue := [[7]] }) []
      (by decide)).1,
   (C4_stop_precedence ClientType.Exporter
      (ZmqClient.stopServer
        { ClientState.initial with flushOnExit := true, messageQue := [[7]] }) []
      (by decide)).2.2.1⟩

/-- Helper: the flush loop emits DATA envelopes for a prefix of the
queue, in index order, whatever the send oracle reports. -/
theorem flushLoop_take (q : List (List Nat)) (oracle : List (Bool × Bool)) :
    ∃ k, k ≤ q.length ∧
      flushLoop q oracle = (q.take k).map (fun m => (defaultFrame, m)) := by
  induction q generalizing oracle with
  | nil => exact ⟨0, by simp [flushLoop]⟩
  | cons msg rest ih =>
    rcases ih oracle.tail with ⟨k, hk, hfl⟩
    by_cases h1 : (oracle.head?.getD (true, true)).1
    · by_cases h2 : (oracle.head?.getD (true, true)).2
      · exact ⟨k + 1, by simp; omega, by simp [flushLoop, h1, h2, hfl]⟩
      · exact ⟨1, by simp, by simp [flushLoop, h1, h2]⟩
    · exact ⟨0, by simp, by simp [flushLoop, h1]⟩

/-- Claim C10: in the flush-on-exit teardown path (`flushOnExit` set,
`serverStop` clear) the worker sends each queued payload at most once,
in queue index order (the emitted envelopes are a prefix of the queue
mapped to DATA envelopes), but never pops: the queue keeps exactly the
same number of elements, so `getOutstandingMessages` does not decrease
because of the flush. -/
theorem C10_flush_no_pop (ct : ClientType) (st : ClientState)
    (oracle : List (Bool × Bool))
    (h1 : st.serverStop = false) (h2 : st.flushOnExit = true) :
    (∃ k, k ≤ st.messageQue.length ∧
      (workerTeardown ct st oracle).2 =
        (st.messageQue.take k).map (fun m => (defaultFrame, m))) ∧
    (workerTeardown ct st oracle).1.messageQue = st.messageQue ∧
    ZmqClient.getOutstandingMessages (workerTeardown ct st oracle).1 =
      ZmqClient.getOutstandingMessages st := by
  refine ⟨?_, by simp [workerTeardown, h1, h2], ?_⟩
  · simp only [workerTeardown, h1, h2]
    simpa using flushLoop_take st.messageQue oracle
  · simp [workerTeardown, h1, h2, ZmqClient.getOutstandingMessages]

/-- Claim C10 witness: flushing a two-element queue with all sends
succeeding leaves both elements in the queue. -/
theorem C10_flush_no_pop_witness :
    (workerTeardown ClientType.Exporter
        { ClientState.initial with flushOnExit := true, messageQue := [[1], [2]] } []).1.messageQue =
      [[1], [2]] ∧
    ZmqClient.getOutstandingMessages
      (workerTeardown ClientType.Exporter
        { ClientState.initial with flushOnExit := true, messageQue := [[1], [2]] } []).1 = 2 :=
  ⟨(C10_flush_no_pop ClientType.Exporter
      { ClientState.initial with flushOnExit := true, messageQue := [[1], [2]] } []
      (by decide) (by decide)).2.1,
   by
    rw [(C10_flush_no_pop ClientType.Exporter
      { ClientState.initial with flushOnExit := true, messageQue := [[1], [2]] } []
      (by decide) (by decide)).2.2]
    decide⟩
